import Mathlib

-- Verification of the ruusti-tag collector (src/main.rs) against its
-- specification. The payload decoder RuuviData::new, the export step
-- send_data, the poll loop in start/update_data and the discovery phase in
-- discover/start are embedded shallowly below. Machine integers are modelled
-- as Nat with explicit reduction modulo 2 ^ w where the Rust code can wrap;
-- f32 arithmetic is modelled in exact rational arithmetic (no claim settled
-- here depends on f32 rounding, only on which raw bits feed each field).

-- ---------------------------------------------------------------------------
-- Bit-level model of the bitreader crate as used by RuuviData::new.
-- A buffer is a list of bytes; bit i of the buffer is bit (7 - i % 8) of
-- byte (i / 8), i.e. bits are consumed most significant first, exactly as
-- BitReader does.
-- ---------------------------------------------------------------------------

/-- Bit number i of the byte buffer, most significant bit of byte 0 first. -/
def bitAt (buf : List Nat) (i : Nat) : Nat :=
  (buf.getD (i / 8) 0 >>> (7 - i % 8)) % 2

/-- Value of the w bits starting at bit position pos, most significant first.
This is the value BitReader returns for a w bit read at position pos. -/
def readBits (buf : List Nat) (pos : Nat) : Nat → Nat
  | 0 => 0
  | w + 1 => readBits buf pos w * 2 + bitAt buf (pos + w)

/-- State of a BitReader: the underlying buffer and the bit cursor. -/
structure BitReader where
  buf : List Nat
  pos : Nat
  deriving DecidableEq

/-- BitReader::new starts the cursor at bit 0. -/
def BitReader.new (buf : List Nat) : BitReader := ⟨buf, 0⟩

/-- BitReader::skip advances the cursor, failing with NotEnoughData when
fewer than n bits remain. -/
def BitReader.skip : BitReader → Nat → Except Unit BitReader
  | ⟨buf, pos⟩, n =>
    if pos + n ≤ 8 * buf.length then .ok ⟨buf, pos + n⟩ else .error ()

/-- Core read: n bits from the cursor, failing with NotEnoughData when fewer
than n bits remain. All read_uN variants of the crate reduce to this. -/
def BitReader.read : BitReader → Nat → Except Unit (Nat × BitReader)
  | ⟨buf, pos⟩, n =>
    if pos + n ≤ 8 * buf.length then .ok (readBits buf pos n, ⟨buf, pos + n⟩)
    else .error ()

/-- BitReader::read_u8 with bit_count n (n ≤ 8 at every call site). -/
def BitReader.read_u8 (r : BitReader) (n : Nat) : Except Unit (Nat × BitReader) :=
  r.read n

/-- BitReader::read_u16 with bit_count n (n ≤ 16 at every call site). -/
def BitReader.read_u16 (r : BitReader) (n : Nat) : Except Unit (Nat × BitReader) :=
  r.read n

/-- BitReader::read_u32 with bit_count n (n ≤ 32 at every call site). -/
def BitReader.read_u32 (r : BitReader) (n : Nat) : Except Unit (Nat × BitReader) :=
  r.read n

/-- Sign extension of a w bit value, as read_i16 interprets the raw bits. -/
def signExtend (w v : Nat) : Int :=
  if v < 2 ^ (w - 1) then (v : Int) else (v : Int) - 2 ^ w

/-- BitReader::read_i16 with bit_count n: reads n bits and sign extends. -/
def BitReader.read_i16 (r : BitReader) (n : Nat) : Except Unit (Int × BitReader) :=
  match r.read n with
  | .error e => .error e
  | .ok (v, r2) => .ok (signExtend n v, r2)

-- ---------------------------------------------------------------------------
-- The payload decoder RuuviData::new (src/main.rs lines 37 to 66).
-- ---------------------------------------------------------------------------

/-- The RuuviData struct of src/main.rs. Rust types: temperature, humidity,
acceleration_x, acceleration_y, acceleration_z, voltage are f32 (modelled as
exact rationals); pressure is u32; tx_power is u16; movement_counter is u8;
measurement_sequence is u16 (all modelled as Nat, with wrapping made explicit
in the decoder); the BDAddr mac address is modelled as a string. -/
structure RuuviData where
  name : String
  mac_address : String
  temperature : ℚ
  humidity : ℚ
  pressure : Nat
  acceleration_x : ℚ
  acceleration_y : ℚ
  acceleration_z : ℚ
  voltage : ℚ
  tx_power : Nat
  movement_counter : Nat
  measurement_sequence : Nat
  deriving DecidableEq

/-- Outcome of RuuviData::new. The Rust function returns
Result<RuuviData, Box<dyn Error>>, but the first statement
reader.skip(8).unwrap() can also panic before any field is read, so the model
keeps three outcomes: panicked for the unwrap panic, truncated for an Err
propagated by a ? on a read (the bitreader NotEnoughData error), and ok. -/
inductive DecodeResult (α : Type) where
  | panicked
  | truncated
  | ok (value : α)
  deriving DecidableEq

/-- RuuviData::new of src/main.rs. Each match arm mirrors one statement: the
skip(8).unwrap, then the ten field reads, each with the ? operator. The
tx_power line computes reader.read_u16(5)? * 2 - 40 in u16 arithmetic, which
wraps modulo 2 ^ 16 (release profile; a debug profile build panics on the
underflow instead). The pressure line adds 50000 in u32 arithmetic. -/
def RuuviData.new (name : String) (mac_address : String) (raw_data : List Nat) :
    DecodeResult RuuviData :=
  match (BitReader.new raw_data).skip 8 with
  | .error _ => .panicked
  | .ok r0 =>
  match r0.read_u16 16 with
  | .error _ => .truncated
  | .ok (temperature, r1) =>
  match r1.read_u16 16 with
  | .error _ => .truncated
  | .ok (humidity, r2) =>
  match r2.read_u32 16 with
  | .error _ => .truncated
  | .ok (pressure, r3) =>
  match r3.read_i16 16 with
  | .error _ => .truncated
  | .ok (acceleration_x, r4) =>
  match r4.read_i16 16 with
  | .error _ => .truncated
  | .ok (acceleration_y, r5) =>
  match r5.read_i16 16 with
  | .error _ => .truncated
  | .ok (acceleration_z, r6) =>
  match r6.read_u16 11 with
  | .error _ => .truncated
  | .ok (voltage, r7) =>
  match r7.read_u16 5 with
  | .error _ => .truncated
  | .ok (tx_power, r8) =>
  match r8.read_u8 8 with
  | .error _ => .truncated
  | .ok (movement_counter, r9) =>
  match r9.read_u16 16 with
  | .error _ => .truncated
  | .ok (measurement_sequence, _) =>
  .ok
    { name := name
      mac_address := mac_address
      temperature := (temperature : ℚ) * 0.005
      humidity := (humidity : ℚ) * 0.0025
      pressure := (pressure + 50000) % 2 ^ 32
      acceleration_x := (acceleration_x : ℚ) / 1000
      acceleration_y := (acceleration_y : ℚ) / 1000
      acceleration_z := (acceleration_z : ℚ) / 1000
      voltage := (voltage : ℚ) * 0.001 + 1.6
      tx_power := (tx_power * 2 + (2 ^ 16 - 40)) % 2 ^ 16
      movement_counter := movement_counter
      measurement_sequence := measurement_sequence }

-- ---------------------------------------------------------------------------
-- The export step send_data (src/main.rs lines 210 to 237). The influxdb2
-- DataPoint builder is modelled as a record of a measurement name, a tag
-- list and a field list, with tag and field appending one entry. Integer
-- fields (field(.., x as i64)) carry an Int; floating point fields
-- (field(.., x as f64)) carry the exact rational the model tracks for the
-- f32 value; the f32 to f64 cast is exact. DataPoint::build returns a
-- Result in the crate, failing only when no field was added; every call
-- site below adds ten fields, so it is modelled as total.
-- ---------------------------------------------------------------------------

/-- Value of one field of an influx DataPoint. -/
inductive FieldValue where
  | i (z : Int)
  | f (q : ℚ)
  deriving DecidableEq

/-- A finished influx DataPoint. -/
structure DataPoint where
  measurement : String
  tags : List (String × String)
  fields : List (String × FieldValue)
  deriving DecidableEq

/-- The builder state of influxdb2 DataPoint::builder. -/
structure DataPointBuilder where
  measurement : String
  tags : List (String × String)
  fields : List (String × FieldValue)
  deriving DecidableEq

/-- DataPoint::builder(measurement). -/
def DataPoint.builder (measurement : String) : DataPointBuilder :=
  ⟨measurement, [], []⟩

/-- Builder tag(key, value): appends one tag. -/
def DataPointBuilder.tag (b : DataPointBuilder) (k v : String) :
    DataPointBuilder :=
  ⟨b.measurement, b.tags ++ [(k, v)], b.fields⟩

/-- Builder field(key, value): appends one field. -/
def DataPointBuilder.field (b : DataPointBuilder) (k : String)
    (v : FieldValue) : DataPointBuilder :=
  ⟨b.measurement, b.tags, b.fields ++ [(k, v)]⟩

/-- Builder build(): the finished point. -/
def DataPointBuilder.build (b : DataPointBuilder) : DataPoint :=
  ⟨b.measurement, b.tags, b.fields⟩

/-- The point construction loop of send_data: one DataPoint per RuuviData,
with the exact builder chain of src/main.rs lines 215 to 230. The sink write
itself (influx_client.write) is a network call whose success is a parameter
of the poll loop model below. -/
def send_data_points (influx_measurement : String)
    (ruuvi_datas : List RuuviData) : List DataPoint :=
  ruuvi_datas.map fun data =>
    ((((((((((((DataPoint.builder influx_measurement).tag
      "name" data.name).tag
      "mac" data.mac_address).field
      "temperature" (.f data.temperature)).field
      "humidity" (.f data.humidity)).field
      "pressure" (.i (data.pressure : Int))).field
      "acceleration_x" (.f data.acceleration_x)).field
      "acceleration_y" (.f data.acceleration_y)).field
      "acceleration_z" (.f data.acceleration_z)).field
      "voltage" (.f data.voltage)).field
      "tx_power" (.i (data.tx_power : Int))).field
      "movement_counter" (.i (data.movement_counter : Int))).field
      "measurement_sequence" (.i (data.measurement_sequence : Int))
    |>.build

-- ---------------------------------------------------------------------------
-- The poll loop: update_data (lines 194 to 208) and the polling loop of
-- start (lines 187 to 191). The transport collaborator is abstracted by the
-- outcome each device produces for ruuvi.notifications() and next() within
-- one tick, and the sink by whether the influx write of the tick succeeds.
-- Timing (sleep_until) is not modelled.
-- ---------------------------------------------------------------------------

/-- Outcome of ruuvi.notifications().await and notification.next().await for
one device within one tick. -/
inductive NotifyOutcome where
  | stream_error
  | no_notification
  | notification (value : List Nat)
  deriving DecidableEq

/-- One entry of self.ruuvis as seen by one tick of update_data. -/
structure PolledDevice where
  name : String
  address : String
  outcome : NotifyOutcome
  deriving DecidableEq

/-- The batch collection loop of update_data. A stream error (if let Ok
fails) or an absent notification silently skips the device; a delivered
notification is decoded with RuuviData::new(..).unwrap(), so any decode
failure (truncated data, or the skip panic) panics the whole tick: none
models the panic, some the collected batch. -/
def collectBatch : List PolledDevice → Option (List RuuviData)
  | [] => some []
  | d :: rest =>
    match d.outcome with
    | .stream_error => collectBatch rest
    | .no_notification => collectBatch rest
    | .notification v =>
      match RuuviData.new d.name d.address v with
      | .ok rd => (collectBatch rest).map (rd :: ·)
      | _ => none

/-- Result of one call of update_data, including the send_data call it ends
with: panic when a decode unwrap panics, sink_error when the influx write
fails (the error is returned and propagated by the ? in start), ok when the
write succeeds. The points list is the batch send_data built for the tick. -/
inductive UpdateResult where
  | panic
  | sink_error (points : List DataPoint)
  | ok (points : List DataPoint)
  deriving DecidableEq

/-- update_data of src/main.rs: collect the batch over all devices, then
send_data. sink_ok tells whether the influx write of this tick succeeds. -/
def update_data (devices : List PolledDevice) (sink_ok : Bool)
    (influx_measurement : String) : UpdateResult :=
  match collectBatch devices with
  | none => .panic
  | some batch =>
    if sink_ok then .ok (send_data_points influx_measurement batch)
    else .sink_error (send_data_points influx_measurement batch)

/-- Input of one scheduled tick of the polling loop: the per device
notification outcomes and whether the sink write succeeds. -/
structure TickInput where
  devices : List PolledDevice
  sink_ok : Bool
  deriving DecidableEq

/-- Result of running the polling loop of start over a finite schedule of
tick inputs. writes counts the influx writes attempted. running means every
scheduled tick was processed and the loop is still going; exited means the ?
on self.update_data(..) propagated an error (or a decode unwrap panicked)
and the loop terminated, abandoning the remaining schedule. -/
inductive LoopResult where
  | running (writes : Nat)
  | exited (writes : Nat) (last : UpdateResult)
  deriving DecidableEq

/-- Number of influx writes attempted during the modelled run. -/
def LoopResult.writes : LoopResult → Nat
  | .running n => n
  | .exited n _ => n

/-- The polling loop of start (lines 187 to 191): loop { update_data().await?
; sleep }. An ok tick attempts one successful write and continues; a
sink_error tick attempts one failing write and exits the loop through the ?
(terminating the process, since start is called from main); a panicking tick
exits without attempting a write. -/
def pollLoop (influx_measurement : String) : List TickInput → LoopResult
  | [] => .running 0
  | t :: rest =>
    match update_data t.devices t.sink_ok influx_measurement with
    | .ok _ =>
      match pollLoop influx_measurement rest with
      | .running n => .running (n + 1)
      | .exited n r => .exited (n + 1) r
    | .sink_error pts => .exited 1 (.sink_error pts)
    | .panic => .exited 0 .panic

-- ---------------------------------------------------------------------------
-- Discovery: discover (lines 117 to 173) and the retry loop of start
-- (lines 177 to 185). The transport is abstracted per configured tag by the
-- success of each step discover performs for it. The wait loop of discover
-- (lines 132 to 152) blocks until self.ruuvis holds one peripheral per
-- configured tag, so a successful pass hands every configured tag to the
-- connect and subscribe loop; the model passes the configured tag list
-- directly to that loop.
-- ---------------------------------------------------------------------------

/-- One configured tag together with the outcome of each transport step the
discover pass would perform on it: connect, discover_services, the presence
of the notify characteristic with the NOTIFY property, subscribe, and the
is_connected call of the final println. -/
structure TagDevice where
  name : String
  address : String
  connect_ok : Bool
  discover_services_ok : Bool
  has_notify_characteristic : Bool
  subscribe_ok : Bool
  is_connected_ok : Bool
  deriving DecidableEq

/-- State of one entry of self.ruuvis when discover returns Ok: whether the
peripheral was actually subscribed to the notify characteristic. -/
structure SubscribedDevice where
  name : String
  address : String
  subscribed : Bool
  deriving DecidableEq

/-- The body of the connect and subscribe loop (lines 155 to 171) for one
device. Each ? propagates a transport error out of discover. When no
characteristic matches NOTIFY_CHARACTERISTIC_UUID with the NOTIFY property,
the for loop simply finds nothing to subscribe to and the device stays
unsubscribed without any error. -/
def connectOne (d : TagDevice) : Except Unit SubscribedDevice :=
  if d.connect_ok then
    if d.discover_services_ok then
      if d.has_notify_characteristic then
        if d.subscribe_ok then
          if d.is_connected_ok then .ok ⟨d.name, d.address, true⟩
          else .error ()
        else .error ()
      else
        if d.is_connected_ok then .ok ⟨d.name, d.address, false⟩
        else .error ()
    else .error ()
  else .error ()

/-- The connect and subscribe loop over every entry of self.ruuvis. -/
def connectAndSubscribe : List TagDevice → Except Unit (List SubscribedDevice)
  | [] => .ok []
  | d :: rest =>
    match connectOne d with
    | .error e => .error e
    | .ok s =>
      match connectAndSubscribe rest with
      | .error e => .error e
      | .ok l => .ok (s :: l)

/-- discover of src/main.rs. When the adapter list is empty it prints an
error to stderr but returns Ok(()) with self.ruuvis left empty (lines 120 to
123); otherwise the wait loop blocks until every configured tag is found and
the connect and subscribe loop runs over all of them. The returned list
models self.ruuvis as the polling phase will see it. -/
def discover (adapters_empty : Bool) (tags : List TagDevice) :
    Except Unit (List SubscribedDevice) :=
  if adapters_empty then .ok []
  else connectAndSubscribe tags

/-- The startup retry loop of start (lines 177 to 185): discover is retried
until it returns Ok, and only then does the polling loop begin. The schedule
lists the environment of each successive discover attempt; some devs means
the loop exited and polling starts over devs, none means every modelled
attempt failed and the loop is still retrying (polling has not started). -/
def startDiscoveryPhase : List (Bool × List TagDevice) →
    Option (List SubscribedDevice)
  | [] => none
  | (ae, tags) :: rest =>
    match discover ae tags with
    | .ok devs => some devs
    | .error _ => startDiscoveryPhase rest

-- ---------------------------------------------------------------------------
-- Concrete inputs used in evaluations, counterexamples and witnesses.
-- ---------------------------------------------------------------------------

/-- An 18 byte all zero payload: the shortest buffer the fixed layout
accepts, with every raw field equal to 0. -/
def zeros18 : List Nat := List.replicate 18 0

/-- A device delivering a valid 18 byte notification. -/
def goodDevice : PolledDevice := ⟨"good", "G", .notification zeros18⟩

/-- A device delivering a 3 byte notification, too short for the layout. -/
def badDevice : PolledDevice := ⟨"bad", "B", .notification [5, 0, 0]⟩

/-- The DataPoint send_data builds for the decoded all zero payload of
goodDevice under measurement name m. -/
def zeroPoint : DataPoint :=
  { measurement := "m"
    tags := [("name", "good"), ("mac", "G")]
    fields := [("temperature", .f 0), ("humidity", .f 0),
      ("pressure", .i 50000), ("acceleration_x", .f 0),
      ("acceleration_y", .f 0), ("acceleration_z", .f 0),
      ("voltage", .f 1.6), ("tx_power", .i 65496),
      ("movement_counter", .i 0), ("measurement_sequence", .i 0)] }

-- ---------------------------------------------------------------------------
-- Basic lemmas about the bit model.
-- ---------------------------------------------------------------------------

theorem bitAt_lt_two (buf : List Nat) (i : Nat) : bitAt buf i < 2 :=
  Nat.mod_lt _ (by norm_num)

theorem readBits_lt (buf : List Nat) (pos : Nat) (w : Nat) :
    readBits buf pos w < 2 ^ w := by
  induction w with
  | zero => simp [readBits]
  | succ n ih =>
    have hb := bitAt_lt_two buf (pos + n)
    simp only [readBits, pow_succ]
    omega

theorem readBits_congr (b1 b2 : List Nat) (pos : Nat) (w : Nat)
    (h : ∀ i, i < w → bitAt b1 (pos + i) = bitAt b2 (pos + i)) :
    readBits b1 pos w = readBits b2 pos w := by
  induction w with
  | zero => rfl
  | succ n ih =>
    simp only [readBits]
    rw [ih (fun i hi => h i (by omega)), h n (by omega)]

/-- Canonical form of a successful decode: with at least 18 bytes of input,
RuuviData::new succeeds and every field is a fixed function of a fixed bit
range, the ranges being consumed back to back from bit 8 to bit 144. -/
theorem RuuviData.new_eq_of_length (name mac : String) (raw : List Nat)
    (h : 18 ≤ raw.length) :
    RuuviData.new name mac raw = DecodeResult.ok
      { name := name
        mac_address := mac
        temperature := (readBits raw 8 16 : ℚ) * 0.005
        humidity := (readBits raw 24 16 : ℚ) * 0.0025
        pressure := readBits raw 40 16 + 50000
        acceleration_x := (signExtend 16 (readBits raw 56 16) : ℚ) / 1000
        acceleration_y := (signExtend 16 (readBits raw 72 16) : ℚ) / 1000
        acceleration_z := (signExtend 16 (readBits raw 88 16) : ℚ) / 1000
        voltage := (readBits raw 104 11 : ℚ) * 0.001 + 1.6
        tx_power := (readBits raw 115 5 * 2 + (2 ^ 16 - 40)) % 2 ^ 16
        movement_counter := readBits raw 120 8
        measurement_sequence := readBits raw 128 16 } := by
  have hp : (readBits raw 40 16 + 50000) % 2 ^ 32 = readBits raw 40 16 + 50000 := by
    apply Nat.mod_eq_of_lt
    have := readBits_lt raw 40 16
    have h16 : (2 : Nat) ^ 16 = 65536 := by norm_num
    have h32 : (2 : Nat) ^ 32 = 4294967296 := by norm_num
    omega
  have e0 : (BitReader.new raw).skip 8 = Except.ok ⟨raw, 8⟩ := by
    simp only [BitReader.new, BitReader.skip]
    rw [if_pos (by omega)]
  have er : ∀ pos n q, pos + n = q → q ≤ 144 →
      BitReader.read ⟨raw, pos⟩ n = Except.ok (readBits raw pos n, ⟨raw, q⟩) := by
    intro pos n q hq hn
    simp only [BitReader.read]
    rw [if_pos (by omega), hq]
  simp only [RuuviData.new, BitReader.read_u16, BitReader.read_u32,
    BitReader.read_u8, BitReader.read_i16, e0,
    er 8 16 24 (by norm_num) (by norm_num), er 24 16 40 (by norm_num) (by norm_num),
    er 40 16 56 (by norm_num) (by norm_num), er 56 16 72 (by norm_num) (by norm_num),
    er 72 16 88 (by norm_num) (by norm_num), er 88 16 104 (by norm_num) (by norm_num),
    er 104 11 115 (by norm_num) (by norm_num), er 115 5 120 (by norm_num) (by norm_num),
    er 120 8 128 (by norm_num) (by norm_num), er 128 16 144 (by norm_num) (by norm_num), hp]

/-- Evaluation of the decoder on the all zero payload. The raw 5 bit tx power
field is 0, and the u16 subtraction 0 * 2 - 40 wraps to 65496. -/
theorem RuuviData.new_zeros18 (name mac : String) :
    RuuviData.new name mac zeros18 = DecodeResult.ok
      { name := name
        mac_address := mac
        temperature := 0
        humidity := 0
        pressure := 50000
        acceleration_x := 0
        acceleration_y := 0
        acceleration_z := 0
        voltage := 1.6
        tx_power := 65496
        movement_counter := 0
        measurement_sequence := 0 } := by
  rw [RuuviData.new_eq_of_length name mac zeros18 (by decide)]
  have z1 : readBits zeros18 8 16 = 0 := by decide
  have z2 : readBits zeros18 24 16 = 0 := by decide
  have z3 : readBits zeros18 40 16 = 0 := by decide
  have z4 : readBits zeros18 56 16 = 0 := by decide
  have z5 : readBits zeros18 72 16 = 0 := by decide
  have z6 : readBits zeros18 88 16 = 0 := by decide
  have z7 : readBits zeros18 104 11 = 0 := by decide
  have z8 : readBits zeros18 115 5 = 0 := by decide
  have z9 : readBits zeros18 120 8 = 0 := by decide
  have z10 : readBits zeros18 128 16 = 0 := by decide
  have zs : signExtend 16 0 = 0 := by decide
  simp only [z1, z2, z3, z4, z5, z6, z7, z8, z9, z10, zs]
  norm_num

/-- Bytes that agree on their first 18 entries give the same bit for every
bit position below 144. -/
theorem bitAt_eq_of_take_eq (b1 b2 : List Nat) (i : Nat) (hi : i < 144)
    (hpre : b1.take 18 = b2.take 18) : bitAt b1 i = bitAt b2 i := by
  have hk : i / 8 < 18 := by omega
  have hb : b1.getD (i / 8) 0 = b2.getD (i / 8) 0 := by
    have t1 : (b1.take 18)[i / 8]? = b1[i / 8]? := List.getElem?_take_of_lt hk
    have t2 : (b2.take 18)[i / 8]? = b2[i / 8]? := List.getElem?_take_of_lt hk
    simp only [List.getD, List.get?_eq_getElem?]
    rw [← t1, ← t2, hpre]
  simp only [bitAt, hb]

-- ---------------------------------------------------------------------------
-- Claims about the payload decoder.
-- ---------------------------------------------------------------------------

/-- C1: the claim states that tx_power equals raw * 2 - 40 dBm, negative
whenever raw < 20. The field is u16 in the code, so the subtraction wraps:
on a payload whose raw 5 bit tx power field is 0 the decoder produces 65496,
not -40, and no negative value can ever be produced. This theorem evaluates
the decoder at the failing input (18 zero bytes, raw tx field 0). -/
theorem C1_tx_power_wraps_at_zero :
    RuuviData.new "good" "G" zeros18 = DecodeResult.ok
      { name := "good"
        mac_address := "G"
        temperature := 0
        humidity := 0
        pressure := 50000
        acceleration_x := 0
        acceleration_y := 0
        acceleration_z := 0
        voltage := 1.6
        tx_power := 65496
        movement_counter := 0
        measurement_sequence := 0 } :=
  RuuviData.new_zeros18 "good" "G"

/-- C2: the claim states that every too short buffer yields the Truncated
error and decode never panics. On the empty buffer the very first statement
reader.skip(8).unwrap() panics instead (for buffers of 1 to 17 bytes the ?
operator does return the NotEnoughData error). This theorem evaluates the
decoder at the failing input, the empty buffer. -/
theorem C2_empty_buffer_panics :
    RuuviData.new "good" "G" [] = DecodeResult.panicked := rfl

/-- C6: for every buffer of at least 18 bytes, decode succeeds reading the
fields at consecutive bit positions (skip 8 bits, then 16, 16, 16, 16, 16,
16, 11, 5, 8, 16 bits from one contiguous cursor), and the exact integer
fields satisfy pressure = raw_u16 + 50000, movement_counter = raw_u8,
measurement_sequence = raw_u16. -/
theorem C6_bit_layout (name mac : String) (raw : List Nat)
    (h : 18 ≤ raw.length) :
    RuuviData.new name mac raw = DecodeResult.ok
      { name := name
        mac_address := mac
        temperature := (readBits raw 8 16 : ℚ) * 0.005
        humidity := (readBits raw 24 16 : ℚ) * 0.0025
        pressure := readBits raw 40 16 + 50000
        acceleration_x := (signExtend 16 (readBits raw 56 16) : ℚ) / 1000
        acceleration_y := (signExtend 16 (readBits raw 72 16) : ℚ) / 1000
        acceleration_z := (signExtend 16 (readBits raw 88 16) : ℚ) / 1000
        voltage := (readBits raw 104 11 : ℚ) * 0.001 + 1.6
        tx_power := (readBits raw 115 5 * 2 + (2 ^ 16 - 40)) % 2 ^ 16
        movement_counter := readBits raw 120 8
        measurement_sequence := readBits raw 128 16 } :=
  RuuviData.new_eq_of_length name mac raw h

/-- Witness for C6 at a concrete 18 byte input. -/
theorem C6_bit_layout_witness :
    RuuviData.new "good" "G" zeros18 = DecodeResult.ok
      { name := "good"
        mac_address := "G"
        temperature := (readBits zeros18 8 16 : ℚ) * 0.005
        humidity := (readBits zeros18 24 16 : ℚ) * 0.0025
        pressure := readBits zeros18 40 16 + 50000
        acceleration_x := (signExtend 16 (readBits zeros18 56 16) : ℚ) / 1000
        acceleration_y := (signExtend 16 (readBits zeros18 72 16) : ℚ) / 1000
        acceleration_z := (signExtend 16 (readBits zeros18 88 16) : ℚ) / 1000
        voltage := (readBits zeros18 104 11 : ℚ) * 0.001 + 1.6
        tx_power := (readBits zeros18 115 5 * 2 + (2 ^ 16 - 40)) % 2 ^ 16
        movement_counter := readBits zeros18 120 8
        measurement_sequence := readBits zeros18 128 16 } :=
  C6_bit_layout "good" "G" zeros18 (by decide)

/-- C8: decode is deterministic and side effect free: identical byte buffers
give identical results in every field. RuuviData::new is a pure function of
its arguments (it performs no I/O and reads no global state), which the
shallow embedding reflects directly. -/
theorem C8_decode_deterministic (name mac : String) (r1 r2 : List Nat)
    (h : r1 = r2) :
    RuuviData.new name mac r1 = RuuviData.new name mac r2 := by rw [h]

/-- Witness for C8 at a concrete input. -/
theorem C8_decode_deterministic_witness :
    RuuviData.new "good" "G" zeros18 = RuuviData.new "good" "G" zeros18 :=
  C8_decode_deterministic "good" "G" zeros18 zeros18 rfl

/-- C10: decode depends only on the first 18 bytes of its input: buffers of
length at least 18 that agree on their first 18 bytes decode identically, so
trailing bytes beyond the fixed layout are ignored. -/
theorem C10_depends_only_on_first_18_bytes (name mac : String)
    (b1 b2 : List Nat) (h1 : 18 ≤ b1.length) (h2 : 18 ≤ b2.length)
    (hpre : b1.take 18 = b2.take 18) :
    RuuviData.new name mac b1 = RuuviData.new name mac b2 := by
  have hr : ∀ pos w, pos + w ≤ 144 → readBits b1 pos w = readBits b2 pos w :=
    fun pos w hw => readBits_congr b1 b2 pos w
      (fun i hi => bitAt_eq_of_take_eq b1 b2 (pos + i) (by omega) hpre)
  rw [RuuviData.new_eq_of_length name mac b1 h1,
    RuuviData.new_eq_of_length name mac b2 h2,
    hr 8 16 (by norm_num), hr 24 16 (by norm_num), hr 40 16 (by norm_num),
    hr 56 16 (by norm_num), hr 72 16 (by norm_num), hr 88 16 (by norm_num),
    hr 104 11 (by norm_num), hr 115 5 (by norm_num), hr 120 8 (by norm_num),
    hr 128 16 (by norm_num)]

/-- Witness for C10: two 19 byte buffers differing only in byte 18. -/
theorem C10_depends_only_on_first_18_bytes_witness :
    RuuviData.new "good" "G" (zeros18 ++ [7]) =
      RuuviData.new "good" "G" (zeros18 ++ [9]) :=
  C10_depends_only_on_first_18_bytes "good" "G" (zeros18 ++ [7])
    (zeros18 ++ [9]) (by decide) (by decide) (by decide)

-- ---------------------------------------------------------------------------
-- Evaluation helpers for the poll loop model.
-- ---------------------------------------------------------------------------

/-- The RuuviData value decoded from the all zero payload of goodDevice. -/
theorem collectBatch_goodDevice :
    collectBatch [goodDevice] = some
      [{ name := "good"
         mac_address := "G"
         temperature := 0
         humidity := 0
         pressure := 50000
         acceleration_x := 0
         acceleration_y := 0
         acceleration_z := 0
         voltage := 1.6
         tx_power := 65496
         movement_counter := 0
         measurement_sequence := 0 }] := by
  simp [collectBatch, goodDevice, RuuviData.new_zeros18]

/-- update_data on a tick with one healthy device and a failing sink write
returns the propagated sink error, carrying the one point batch. -/
theorem update_data_good_sink_fail :
    update_data [goodDevice] false "m" = UpdateResult.sink_error [zeroPoint] := by
  simp [update_data, collectBatch_goodDevice, send_data_points, zeroPoint,
    DataPoint.builder, DataPointBuilder.tag, DataPointBuilder.field,
    DataPointBuilder.build]

-- ---------------------------------------------------------------------------
-- Claims about the poll loop and export.
-- ---------------------------------------------------------------------------

/-- C3: the claim states that a per device failure within one tick is
recorded, excluded from the batch, and does not abort the tick or change the
outcome for other devices. The code refutes this for decode errors: the
first conjunct evaluates a tick where one device delivers a 3 byte
notification and a second device delivers a valid one, and the whole tick
panics on RuuviData::new(..).unwrap(), losing the healthy reading and never
reaching send_data. The second conjunct shows the contrast the claim
misses: a transport stream error on the same first device is silently
skipped and the tick completes with the healthy reading. -/
theorem C3_decode_error_aborts_tick :
    update_data [badDevice, goodDevice] true "m" = UpdateResult.panic ∧
    update_data [⟨"bad", "B", NotifyOutcome.stream_error⟩, goodDevice] true "m"
      = UpdateResult.ok [zeroPoint] := by
  constructor
  · rfl
  · rw [show update_data [⟨"bad", "B", NotifyOutcome.stream_error⟩, goodDevice]
        true "m" = update_data [goodDevice] true "m" from rfl]
    simp [update_data, collectBatch_goodDevice, send_data_points, zeroPoint,
      DataPoint.builder, DataPointBuilder.tag, DataPointBuilder.field,
      DataPointBuilder.build]

/-- C4 counterexample: a two tick schedule whose first tick has a healthy
device but a failing sink write. The claim states the collector still
performs tick 2 and attempts a fresh write; instead the ? on update_data
exits the loop after the first failing write, so only one write is ever
attempted and the second scheduled tick never runs. -/
theorem C4_sink_failure_stops_loop :
    pollLoop "m" [⟨[goodDevice], false⟩, ⟨[goodDevice], true⟩] =
      LoopResult.exited 1 (UpdateResult.sink_error [zeroPoint]) ∧
    (pollLoop "m" [⟨[goodDevice], false⟩, ⟨[goodDevice], true⟩]).writes = 1 := by
  have h : update_data ([goodDevice] : List PolledDevice) false "m" =
      UpdateResult.sink_error [zeroPoint] := update_data_good_sink_fail
  refine ⟨?_, ?_⟩ <;> simp only [pollLoop, h, LoopResult.writes]

/-- C4 amended: a sink write failure on tick K makes the ? in the polling
loop of start propagate the error out of the loop: the batch is dropped,
the loop exits after that single failing write attempt, and no later tick
runs, whatever the rest of the schedule would have been. -/
theorem C4_amended_sink_error_exits_loop (m : String) (t : TickInput)
    (rest rest2 : List TickInput) (pts : List DataPoint)
    (h : update_data t.devices t.sink_ok m = UpdateResult.sink_error pts) :
    pollLoop m (t :: rest) = LoopResult.exited 1 (UpdateResult.sink_error pts) ∧
    pollLoop m (t :: rest) = pollLoop m (t :: rest2) := by
  constructor <;> simp only [pollLoop, h]

/-- Witness for the amended C4 at a concrete schedule. -/
theorem C4_amended_sink_error_exits_loop_witness :
    pollLoop "m" [⟨[goodDevice], false⟩] =
      LoopResult.exited 1 (UpdateResult.sink_error [zeroPoint]) ∧
    pollLoop "m" [⟨[goodDevice], false⟩] =
      pollLoop "m" [⟨[goodDevice], false⟩, ⟨[], true⟩] :=
  C4_amended_sink_error_exits_loop "m" ⟨[goodDevice], false⟩ [] [⟨[], true⟩]
    [zeroPoint] update_data_good_sink_fail

/-- C9: the export step builds exactly one sink point per reading, tagged by
source name and source address, with pressure, tx_power, movement_counter
and measurement_sequence written as integer fields and temperature,
humidity, the three accelerations and the battery voltage as floating point
fields. -/
theorem C9_export_points (influx_measurement : String)
    (batch : List RuuviData) :
    (send_data_points influx_measurement batch).length = batch.length ∧
    send_data_points influx_measurement batch = batch.map (fun data =>
      { measurement := influx_measurement
        tags := [("name", data.name), ("mac", data.mac_address)]
        fields := [("temperature", .f data.temperature),
          ("humidity", .f data.humidity),
          ("pressure", .i (data.pressure : Int)),
          ("acceleration_x", .f data.acceleration_x),
          ("acceleration_y", .f data.acceleration_y),
          ("acceleration_z", .f data.acceleration_z),
          ("voltage", .f data.voltage),
          ("tx_power", .i (data.tx_power : Int)),
          ("movement_counter", .i (data.movement_counter : Int)),
          ("measurement_sequence", .i (data.measurement_sequence : Int))] }) := by
  refine ⟨?_, rfl⟩
  simp [send_data_points]

-- ---------------------------------------------------------------------------
-- Claims about discovery and startup.
-- ---------------------------------------------------------------------------

/-- C5: the claim states that with no usable wireless adapter present at
startup the collector terminates the process and never reaches polling. The
code refutes this: discover prints the error to stderr but returns Ok(()),
so the retry loop of start breaks on the first attempt and the polling loop
begins over an empty device map, even with a tag configured. The first
conjunct evaluates discover on an empty adapter list, the second shows the
startup phase completing (polling starting) on that same attempt. -/
theorem C5_no_adapter_reaches_polling :
    discover true [⟨"tag1", "AD", true, true, true, true, true⟩] =
      Except.ok [] ∧
    startDiscoveryPhase [(true, [⟨"tag1", "AD", true, true, true, true, true⟩])]
      = some [] := by
  constructor <;> rfl

/-- C7 counterexample: a configured device that connects and discovers
services but exposes no characteristic matching NOTIFY_CHARACTERISTIC_UUID
with the NOTIFY property. discover returns Ok without subscribing it, the
startup phase completes, and the first poll tick targets a device that was
never Subscribed, refuting the claim that the first tick only targets
devices already Subscribed. -/
theorem C7_unsubscribed_device_enters_polling :
    startDiscoveryPhase
      [(false, [⟨"tag1", "AD", true, true, false, true, true⟩])] =
      some [⟨"tag1", "AD", false⟩] := by rfl

/-- Inversion of a successful connect and subscribe pass: every configured
device was connected, its services discovered, the is_connected query
succeeded, and it ended subscribed exactly when it exposes the notify
characteristic (a subscribe attempt that happened must have succeeded). -/
theorem connectAndSubscribe_ok : ∀ (tags : List TagDevice)
    (devs : List SubscribedDevice),
    connectAndSubscribe tags = Except.ok devs →
    devs = tags.map (fun d =>
      (⟨d.name, d.address, d.has_notify_characteristic⟩ : SubscribedDevice)) ∧
    ∀ d ∈ tags, d.connect_ok = true ∧ d.discover_services_ok = true ∧
      d.is_connected_ok = true ∧
      (d.has_notify_characteristic = true → d.subscribe_ok = true)
  | [], devs, h => by
    simp only [connectAndSubscribe, Except.ok.injEq] at h
    subst h
    simp
  | d :: rest, devs, h => by
    simp only [connectAndSubscribe] at h
    cases hc : connectOne d with
    | error e => rw [hc] at h; cases h
    | ok s =>
      rw [hc] at h
      cases hr : connectAndSubscribe rest with
      | error e => rw [hr] at h; cases h
      | ok l =>
        rw [hr] at h
        obtain ⟨hmap, hall⟩ := connectAndSubscribe_ok rest l hr
        have hs : s = ⟨d.name, d.address, d.has_notify_characteristic⟩ ∧
            d.connect_ok = true ∧ d.discover_services_ok = true ∧
            d.is_connected_ok = true ∧
            (d.has_notify_characteristic = true → d.subscribe_ok = true) := by
          unfold connectOne at hc
          split_ifs at hc with h1 h2 h3 h4 h5 h6 <;> cases hc <;>
            simp_all
        obtain ⟨hs1, hs2⟩ := hs
        cases h
        subst hs1
        refine ⟨by simp [hmap], ?_⟩
        intro x hx
        rcases List.mem_cons.mp hx with hx | hx
        · subst hx; exact hs2
        · exact hall x hx

/-- C7 amended: the startup phase blocks until a discover pass returns Ok.
When that pass has at least one adapter, every configured device has been
found and connected with services discovered, and exactly those devices
exposing the notify characteristic with the NOTIFY property are Subscribed
when the first poll tick starts; a device lacking that characteristic (or
every device, when no adapter is present) enters the first tick
unsubscribed. -/
theorem C7_amended_first_tick_devices (tags : List TagDevice)
    (devs : List SubscribedDevice)
    (h : discover false tags = Except.ok devs) :
    devs = tags.map (fun d =>
      (⟨d.name, d.address, d.has_notify_characteristic⟩ : SubscribedDevice)) ∧
    ∀ d ∈ tags, d.connect_ok = true ∧ d.discover_services_ok = true ∧
      d.is_connected_ok = true ∧
      (d.has_notify_characteristic = true → d.subscribe_ok = true) := by
  have h2 : connectAndSubscribe tags = Except.ok devs := by
    simpa [discover] using h
  exact connectAndSubscribe_ok tags devs h2

/-- Witness for the amended C7 at a concrete pair of configured devices,
one with and one without the notify characteristic. -/
theorem C7_amended_first_tick_devices_witness :
    ([⟨"tag2", "AE", true⟩, ⟨"tag1", "AD", false⟩] :
        List SubscribedDevice) =
      ([⟨"tag2", "AE", true, true, true, true, true⟩,
        ⟨"tag1", "AD", true, true, false, true, true⟩] :
          List TagDevice).map (fun d =>
        (⟨d.name, d.address, d.has_notify_characteristic⟩ :
          SubscribedDevice)) ∧
    ∀ d ∈ ([⟨"tag2", "AE", true, true, true, true, true⟩,
        ⟨"tag1", "AD", true, true, false, true, true⟩] : List TagDevice),
      d.connect_ok = true ∧ d.discover_services_ok = true ∧
      d.is_connected_ok = true ∧
      (d.has_notify_characteristic = true → d.subscribe_ok = true) :=
  C7_amended_first_tick_devices
    [⟨"tag2", "AE", true, true, true, true, true⟩,
     ⟨"tag1", "AD", true, true, false, true, true⟩]
    [⟨"tag2", "AE", true⟩, ⟨"tag1", "AD", false⟩] (by rfl)
